import Mathlib

/-!
Shallow embedding of the laduc_trading trade-execution engine
(`src/ibdb.py`, `src/ibtrade.py`, `src/utils.py`) and proofs about the
claims of its specification.

Modelling conventions:
* Python floats are modelled as exact rationals `ℚ` (binary floating-point
  rounding is out of scope; all inputs used in theorems are exactly
  representable).
* Python `datetime` values are modelled as integer timestamps (seconds) `ℤ`;
  `timedelta(minutes=m)` is `m * 60`.
* Nullable SQL columns / Python `None` are modelled as `Option`.
* Python truthiness of a nullable float (`if price:`) is: `none` and `some 0`
  are falsy.
* Python expressions that can raise (`None < 3`, division by zero, `raise`)
  are modelled with `Except String`.
* `round(x, n)` is Python 3 banker's rounding (half to even) on `ℚ`.
-/

/-- Python truthiness of an optional float: `None` and `0.0` are falsy. -/
def truthyQ : Option ℚ → Bool
  | none => false
  | some q => q != 0

/-- Python truthiness of an optional string: `None` and `''` are falsy. -/
def truthyS : Option String → Bool
  | none => false
  | some s => s != ""

/-- Python 3 `round(q)` to an integer: round half to even. -/
def pyRoundHalfEven (q : ℚ) : ℤ :=
  let f : ℤ := q.floor
  let frac : ℚ := q - (f : ℚ)
  if frac < 1/2 then f
  else if 1/2 < frac then f + 1
  else if f % 2 = 0 then f else f + 1

/-- Python 3 `round(q, 0)` (result stays a float in Python, a `ℚ` here). -/
def pyRound0 (q : ℚ) : ℚ := (pyRoundHalfEven q : ℚ)

/-- Python 3 `round(q, 2)`. -/
def pyRound2 (q : ℚ) : ℚ := (pyRoundHalfEven (q * 100) : ℚ) / 100

/-- Python `abs` on a rational (kernel-reducible; equal to `|q|`). -/
def pyAbs (q : ℚ) : ℚ := if q < 0 then -q else q

/-- Python `a > b` on two nullable floats: raises `TypeError` when either
side is `None` (Python 3 semantics). -/
def pyGT : Option ℚ → Option ℚ → Except String Bool
  | some a, some b => .ok (a > b)
  | _, _ => .error "TypeError"

/-- Python `a < b` on two nullable floats: raises `TypeError` when either
side is `None`. -/
def pyLT : Option ℚ → Option ℚ → Except String Bool
  | some a, some b => .ok (a < b)
  | _, _ => .error "TypeError"

/-! ## `src/utils.py`: price-string parsing -/

/-- Python `str.split(sep)` for a one-character separator, on the
character list: splitting the empty string gives `[[]]`, and separators at
either end produce empty pieces, as in Python. -/
def splitChar (sep : Char) : List Char → List (List Char)
  | [] => [[]]
  | c :: cs =>
      let r := splitChar sep cs
      if c = sep then [] :: r
      else match r with
        | [] => [[c]]
        | h :: t => (c :: h) :: t

/-- Python `str.split(sep)` on strings. -/
def pySplit (sep : Char) (s : String) : List String :=
  (splitChar sep s.data).map String.mk

/-- Python `sep.join(parts)` for a one-character separator. -/
def joinChar (sep : Char) : List (List Char) → List Char
  | [] => []
  | [x] => x
  | x :: xs => x ++ sep :: joinChar sep xs

/-- Value of a list of decimal digit characters. -/
def digitsToNat (l : List Char) : ℕ :=
  l.foldl (fun acc c => acc * 10 + (c.toNat - '0'.toNat)) 0

/-- Python `float(body)` for a sign-stripped string drawn from the
characters kept by `ensure_price` (digits, `.`, `-`): an optional integer
part, an optional single decimal point, an optional fraction part, with at
least one digit overall.  Returns `none` where Python raises `ValueError`. -/
def pyFloatBody (body : String) : Option ℚ :=
  match pySplit '.' body with
  | [ip] =>
      if ip.length > 0 && ip.data.all Char.isDigit then
        some (digitsToNat ip.data : ℚ)
      else none
  | [ip, fp] =>
      if ip.data.all Char.isDigit && fp.data.all Char.isDigit
          && (ip.length > 0 || fp.length > 0) then
        some ((digitsToNat ip.data : ℚ) + (digitsToNat fp.data : ℚ) / (10 ^ fp.length : ℚ))
      else none
  | _ => none

/-- Python `float(s)` restricted to the character set reaching it here:
an optional leading `-` then `pyFloatBody`. -/
def pyFloat? (s : String) : Option ℚ :=
  match s.data with
  | '-' :: rest => (pyFloatBody (String.mk rest)).map (fun q => -q)
  | _ => pyFloatBody s

/-- `utils.ensure_price`: keep only digits, `,`, `.`, `-`; `float` of the
text before the first comma; `None` on `ValueError`. -/
def ensure_price (x : String) : Option ℚ :=
  let filtered := String.mk (x.data.filter (fun c => c.isDigit || c == ',' || c == '.' || c == '-'))
  pyFloat? ((pySplit ',' filtered).headD "")

/-- One entry of `utils.get_prices_list`: `ensure_price(y) or default` with
`default = None`, so both a parse failure and a parsed value of `0.0`
(falsy) yield the default. -/
def price_list_entry (y : String) : Option ℚ :=
  match ensure_price y with
  | some q => if q = 0 then none else some q
  | none => none

/-- `utils.get_prices_list(x, count)` with the default `default=None`:
split on commas, map `ensure_price(y) or default`, pad with the default up
to `count`, truncate to `count`. -/
def get_prices_list (x : String) (count : ℕ) : List (Option ℚ) :=
  let prices := (pySplit ',' x).map price_list_entry
  let prices := if prices.length < count then
      prices ++ List.replicate (count - prices.length) none
    else prices
  prices.take count

/-! ## `src/ibdb.py`: module-level configuration constants -/

def USE_LMT_ORDERS : Bool := true

def LMT_PCT_OFFSET : ℚ := 0

def LMT_USING_MID : Bool := true

def STK_NBBO_OFFSET : ℚ := 2/100

def EVAL_ORDER_PAUSE_MINUTES : ℤ := 5

def EVAL_DEBIT_SPREAD_PANIC_CLOSE_VALUE : ℚ := 2/100

namespace OrderStatus

def READY : String := "ready"

def PLACED : String := "placed"

def COMPLETE : String := "complete"

def ERROR : String := "error"

def PENDING_STATUSES : List String := [READY, PLACED]

end OrderStatus

namespace TradeStatus

def PRE_OPEN_CHECK : String := "pre-open-check"

def OPEN : String := "open"

def CLOSED : String := "closed"

def ERROR : String := "error"

end TradeStatus

/-! ## `src/ibdb.py`: ORM rows (the columns the claims touch) -/

/-- Row of `ib_executions` (`IbExecution`).  `utc_time` is an integer
timestamp; rows inserted by `register_executions` always carry one, and the
source's `if not match.utc_time` falsy test is modelled as `utc_time = 0`. -/
structure IbExecution where
  exec_id : String
  base_exec_id : String
  correction_id : Option ℤ
  order_id : ℤ
  server_time : String
  utc_time : ℤ
  acc_number : String
  exchange : String
  side : String
  shares : ℚ
  price : ℚ
  cum_qty : ℚ
  avg_price : ℚ
  contract_id : String
  ib_contract_id : ℤ
  deriving DecidableEq, Repr

/-- Row of `ib_orders` (`IbOrder`). -/
structure IbOrder where
  trade_id : ℤ
  contract_id : String
  request_id : ℤ
  action : String
  offset : Option ℚ
  price : Option ℚ
  qty : ℤ
  tif : Option String
  type : String
  status : String
  date_filled : Option ℤ
  exclude : ℤ
  deriving DecidableEq, Repr

/-- Row of `ib_trade_legs` (`IbTradeLeg`).  `ib_contract_id` is nullable
until the broker resolves it. -/
structure IbTradeLeg where
  trade_id : ℤ
  action : String
  ratio : ℤ
  sequence : ℤ
  contract_id : String
  ib_contract_id : Option ℤ
  deriving DecidableEq, Repr

/-- Row of `ib_trades` (`IbTrade`) with its `legs` / `orders`
relationships inlined. -/
structure IbTrade where
  id : ℤ
  symbol : String
  sec_type : String
  size : ℚ
  underlying_entry_price : Option ℚ
  original_entry_price : Option ℚ
  entry_price : Option ℚ
  target_price1 : Option ℚ
  target_price2 : Option ℚ
  target_price3 : Option ℚ
  stop_price1 : Option ℚ
  stop_price2 : Option ℚ
  date_entered : Option ℤ
  date_exited : Option ℤ
  date_added : ℤ
  status : String
  u_id : Option String
  contract_id : Option String
  underlying_contract_id : Option String
  legs : List IbTradeLeg
  orders : List IbOrder
  deriving DecidableEq, Repr

/-- Stable sort of executions ascending by `utc_time`
(Python `sorted(store, key=lambda x: x.utc_time)`). -/
def sortByUtc (l : List IbExecution) : List IbExecution :=
  l.insertionSort (fun a b => a.utc_time ≤ b.utc_time)

/-- Stable sort of executions ascending by `cum_qty`
(Python `sorted(execs, key=lambda x: x.cum_qty)`). -/
def sortByCum (l : List IbExecution) : List IbExecution :=
  l.insertionSort (fun a b => a.cum_qty ≤ b.cum_qty)

/-- `get_executions_by_order_id(session, order_id)`: the executions table
filtered by `order_id`. -/
def get_executions_by_order_id (table : List IbExecution) (order_id : ℤ) : List IbExecution :=
  table.filter (fun e => e.order_id == order_id)

namespace IbOrder

/-- `IbOrder.get_last_execution`: executions of this order, ordered by
`utc_time` descending, first row — i.e. a maximal-`utc_time` execution. -/
def get_last_execution (o : IbOrder) (table : List IbExecution) : Option IbExecution :=
  (sortByUtc (table.filter (fun e => e.order_id == o.request_id))).getLast?

/-- `IbOrder.get_valid_executions` (`self` is unused by the source):
group by `base_exec_id` (first-occurrence order, as a Python dict), and for
each group keep the last element of the list sorted by `utc_time`. -/
def get_valid_executions (order_execs : List IbExecution) : List IbExecution :=
  let baseIds := order_execs.foldl
    (fun acc e => if acc.contains e.base_exec_id then acc else acc ++ [e.base_exec_id]) []
  baseIds.filterMap
    (fun bid => (sortByUtc (order_execs.filter (fun e => e.base_exec_id == bid))).getLast?)

end IbOrder

/-- Python `abs(a) >= b` on a float and a nullable float. -/
def pyGEabs (a : ℚ) : Option ℚ → Except String Bool
  | some b => .ok (pyAbs a ≥ b)
  | none => .error "TypeError"

/-- Python `abs(a) < b` on a float and a nullable float. -/
def pyLTabs (a : ℚ) : Option ℚ → Except String Bool
  | some b => .ok (pyAbs a < b)
  | none => .error "TypeError"

namespace IbTrade

/-- `IbTrade.is_short`: BAG trades are never short; otherwise `size < 0`. -/
def is_short (t : IbTrade) : Bool :=
  if t.sec_type == "BAG" then false else decide (t.size < 0)

/-- `IbTrade.is_long`: BAG trades are always long; otherwise `size > 0`. -/
def is_long (t : IbTrade) : Bool :=
  if t.sec_type == "BAG" then true else decide (t.size > 0)

/-- `IbTrade.profits_down = target_price1 < underlying_entry_price`. -/
def profits_down (t : IbTrade) : Except String Bool :=
  pyLT t.target_price1 t.underlying_entry_price

/-- `IbTrade.profits_up = target_price1 > underlying_entry_price`. -/
def profits_up (t : IbTrade) : Except String Bool :=
  pyGT t.target_price1 t.underlying_entry_price

/-- `IbTrade.has_valid_legs`: non-BAG trades always pass; a BAG needs every
leg to carry a truthy `ib_contract_id`. -/
def has_valid_legs (t : IbTrade) : Bool :=
  if t.sec_type != "BAG" then true
  else (t.legs.filter (fun leg => leg.ib_contract_id.getD 0 != 0)).length == t.legs.length

/-- `IbTrade.get_orders_by_action`: same action, status not `error`,
not excluded. -/
def get_orders_by_action (t : IbTrade) (action : String) : List IbOrder :=
  t.orders.filter (fun o => o.action == action
    && o.status != OrderStatus.ERROR && o.exclude == 0)

/-- `IbTrade.get_orders_completed_by_action`: same action, status
`complete`, not excluded. -/
def get_orders_completed_by_action (t : IbTrade) (action : String) : List IbOrder :=
  t.orders.filter (fun o => o.action == action
    && o.status == OrderStatus.COMPLETE && o.exclude == 0)

/-- `IbTrade.bought_qty`: sum of `abs(order.qty)` over completed BUY
orders. -/
def bought_qty (t : IbTrade) : ℚ :=
  ((t.get_orders_completed_by_action "BUY").map (fun o => pyAbs (o.qty : ℚ))).sum

/-- `IbTrade.sold_qty`: sum of `abs(order.qty)` over completed SELL
orders. -/
def sold_qty (t : IbTrade) : ℚ :=
  ((t.get_orders_completed_by_action "SELL").map (fun o => pyAbs (o.qty : ℚ))).sum

/-- `IbTrade.target_prices`: the truthy ones among
`target_price1..target_price3`, in order. -/
def target_prices (t : IbTrade) : List ℚ :=
  [t.target_price1, t.target_price2, t.target_price3].filterMap
    (fun p => match p with
      | some q => if q ≠ 0 then some q else none
      | none => none)

/-- `IbTrade.stop_prices`: the truthy ones among `stop_price1,
stop_price2`, in order. -/
def stop_prices (t : IbTrade) : List ℚ :=
  [t.stop_price1, t.stop_price2].filterMap
    (fun p => match p with
      | some q => if q ≠ 0 then some q else none
      | none => none)

/-- `IbTrade.total_qty`: qty sum of the opening-side orders if any exist;
else `round(abs(size*1000/entry))` with `entry = original_entry_price or
entry_price` (×100 for BAG/OPT); `None` when `entry` or `size` is falsy. -/
def total_qty (t : IbTrade) : Option ℚ :=
  let orders := t.get_orders_by_action (if t.is_long then "BUY" else "SELL")
  if orders ≠ [] then some ((orders.map (fun o => (o.qty : ℚ))).sum)
  else
    let entry : Option ℚ :=
      if truthyQ t.original_entry_price then t.original_entry_price else t.entry_price
    if ¬ truthyQ entry ∨ t.size = 0 then none
    else
      -- `entry` is truthy here, so the `getD` default is unreachable.
      let e := entry.getD 0
      let e := if t.sec_type == "BAG" || t.sec_type == "OPT" then e * 100 else e
      some (pyRound0 (pyAbs (t.size * 1000 / e)))

/-- `IbTrade.left_qty`: `total_qty` minus the already-closed quantity;
Python raises `TypeError` when `total_qty` is `None`. -/
def left_qty (t : IbTrade) : Except String ℚ :=
  match t.total_qty with
  | none => .error "TypeError"
  | some tq => .ok (if t.is_short then tq - t.bought_qty else tq - t.sold_qty)

/-- `IbTrade.get_next_target`: index the closing-side (non-error,
non-excluded) order count into `target_prices`; `(None, None)` past the
end. -/
def get_next_target (t : IbTrade) : Option ℕ × Option ℚ :=
  let orders := t.get_orders_by_action (if t.is_short then "BUY" else "SELL")
  let idx := orders.length
  match t.target_prices.get? idx with
  | some p => (some idx, some p)
  | none => (none, none)

/-- `IbTrade.get_next_stop`: like `get_next_target` over `stop_prices`. -/
def get_next_stop (t : IbTrade) : Option ℕ × Option ℚ :=
  let orders := t.get_orders_by_action (if t.is_short then "BUY" else "SELL")
  let idx := orders.length
  match t.stop_prices.get? idx with
  | some p => (some idx, some p)
  | none => (none, none)

end IbTrade

namespace IbOrder

/-- `IbOrder.get_executed_bag_qty`: `order.qty` when every leg of the trade
has an execution whose `cum_qty / leg.ratio` equals `order.qty` exactly,
else `0` (the source's docstring: "Return IbOrder.qty or 0").
A zero `leg.ratio` would raise `ZeroDivisionError` in Python; legs always
carry positive ratios. -/
def get_executed_bag_qty (o : IbOrder) (execs : List IbExecution) (t : IbTrade) : ℚ :=
  if t.legs.all (fun leg => execs.any (fun b =>
      b.contract_id == leg.contract_id && b.cum_qty / (leg.ratio : ℚ) == (o.qty : ℚ)))
  then (o.qty : ℚ) else 0

/-- `IbOrder.get_executed_qty`: `0` for no executions; BAG aggregation for
BAG trades; otherwise the largest `cum_qty`. -/
def get_executed_qty (o : IbOrder) (execs : List IbExecution) (trade : Option IbTrade) : ℚ :=
  if execs.isEmpty then 0
  else
    match trade with
    | some t =>
        if t.sec_type == "BAG" then o.get_executed_bag_qty execs t
        else match (sortByCum execs).getLast? with
          | some e => e.cum_qty
          | none => 0  -- unreachable: `execs` is non-empty here
    | none =>
        match (sortByCum execs).getLast? with
        | some e => e.cum_qty
        | none => 0  -- unreachable: `execs` is non-empty here

/-- `IbOrder.get_executed_bag_price`: per-leg loop; a leg with no execution
matching `cum_qty/ratio == qty` short-circuits to `0`; otherwise add the
latest matching execution's `avg_price * ratio`, negated when the first
match's side is `SLD`. -/
def get_executed_bag_price_legs (o : IbOrder) (execs : List IbExecution) :
    List IbTradeLeg → ℚ → ℚ
  | [], price => price
  | leg :: rest, price =>
      let sub_execs := execs.filter (fun b =>
        b.contract_id == leg.contract_id && b.cum_qty / (leg.ratio : ℚ) == (o.qty : ℚ))
      match sub_execs with
      | [] => 0
      | first :: _ =>
          -- `sub_execs` is non-empty, so the sorted list has a last element.
          let latest := ((sortByUtc sub_execs).getLast?).getD first
          let sub_avg_price := latest.avg_price * (leg.ratio : ℚ)
          let sub_avg_price := if first.side == "SLD" then -sub_avg_price else sub_avg_price
          get_executed_bag_price_legs o execs rest (price + sub_avg_price)

/-- `IbOrder.get_executed_price`: BAG price for BAG trades; otherwise the
`avg_price` of the max-`cum_qty` execution (`IndexError` on an empty
list in Python). -/
def get_executed_price (o : IbOrder) (execs : List IbExecution) (trade : Option IbTrade) :
    Except String ℚ :=
  match trade with
  | some t =>
      if t.sec_type == "BAG" then .ok (o.get_executed_bag_price_legs execs t.legs 0)
      else match (sortByCum execs).getLast? with
        | some e => .ok e.avg_price
        | none => .error "IndexError"
  | none =>
      match (sortByCum execs).getLast? with
      | some e => .ok e.avg_price
      | none => .error "IndexError"

end IbOrder

namespace IbTrade

/-- The body of `IbTrade.get_target_and_stop_orders` for one completed
closing order: `none` when skipped (no execution, or the trade is neither
long nor short), otherwise `some (isTarget, (order, executions))`.
The side comparisons against `entry_price` raise `TypeError` in Python
when `entry_price` is `NULL`. -/
def classify_closed_order (t : IbTrade) (table : List IbExecution) (order : IbOrder) :
    Except String (Option (Bool × (IbOrder × List IbExecution))) := do
  match order.get_last_execution table with
  | none => return none
  | some e0 =>
    let (es, exitP) ←
      if t.sec_type == "BAG" then do
        let es := IbOrder.get_valid_executions (get_executions_by_order_id table order.request_id)
        let p ← order.get_executed_price es (some t)
        pure (es, p)
      else
        pure ([e0], e0.avg_price)
    if t.is_short then do
      let c ← pyLTabs exitP t.entry_price
      return some (c, (order, es))
    else if t.is_long then
      if t.sec_type == "BAG" && decide (t.size < 0) then
        match t.entry_price with
        | none => .error "TypeError"
        | some ep => return some (decide (exitP - -ep > 0), (order, es))
      else do
        let c ← pyGEabs exitP t.entry_price
        return some (c, (order, es))
    else return none

/-- `IbTrade.get_target_and_stop_orders`: walk the completed closing-side
orders in descending `request_id` order, classifying each as a target or a
stop exit. -/
def get_target_and_stop_orders (t : IbTrade) (table : List IbExecution) :
    Except String (List (IbOrder × List IbExecution) × List (IbOrder × List IbExecution)) := do
  let action := if t.is_short then "BUY" else "SELL"
  let orders := t.get_orders_completed_by_action action
  let orders_desc := orders.insertionSort (fun a b => b.request_id ≤ a.request_id)
  let mut targets : List (IbOrder × List IbExecution) := []
  let mut stops : List (IbOrder × List IbExecution) := []
  for order in orders_desc do
    match ← t.classify_closed_order table order with
    | none => pure ()
    | some (isTarget, pair) =>
        if isTarget then targets := targets ++ [pair]
        else stops := stops ++ [pair]
  return (targets, stops)

/-- `IbTrade.target_qty`: `left_qty` when a stop exit exists or the number
of target exits is one less than the number of target prices; else
`round(total_qty / number_of_targets)` (`TypeError` on a `None`
`total_qty`, `ZeroDivisionError` on zero targets, as in Python). -/
def target_qty (t : IbTrade) (table : List IbExecution) : Except String ℚ := do
  let (targets, stops) ← t.get_target_and_stop_orders table
  let expected_execs := t.target_prices.length
  if stops ≠ [] ∨ (targets.length : ℤ) = (expected_execs : ℤ) - 1 then t.left_qty
  else
    match t.total_qty with
    | none => .error "TypeError"
    | some tq =>
        if expected_execs = 0 then .error "ZeroDivisionError"
        else .ok (pyRound0 (tq / (expected_execs : ℚ)))

/-- `IbTrade.stop_qty`: symmetric to `target_qty` over `stop_prices`. -/
def stop_qty (t : IbTrade) (table : List IbExecution) : Except String ℚ := do
  let (targets, stops) ← t.get_target_and_stop_orders table
  let expected_execs := t.stop_prices.length
  if targets ≠ [] ∨ (stops.length : ℤ) = (expected_execs : ℤ) - 1 then t.left_qty
  else
    match t.total_qty with
    | none => .error "TypeError"
    | some tq =>
        if expected_execs = 0 then .error "ZeroDivisionError"
        else .ok (pyRound0 (tq / (expected_execs : ℚ)))

end IbTrade

/-! ## `src/ibtrade.py`: the sheet-level `Trade` object -/

/-- The attributes of `ibtrade.Trade` the claims touch.  `sec_type` is
assigned while the tactic is parsed (`None` before then). -/
structure Trade where
  size : ℚ
  sec_type : Option String
  target_price1 : Option ℚ
  underlying_entry_price : Option ℚ
  deriving DecidableEq, Repr

namespace Trade

/-- `Trade.is_long = size > 0`, with no special case for any
`sec_type`. -/
def is_long (tr : Trade) : Bool := decide (tr.size > 0)

/-- `Trade.is_short = size < 0`, with no special case for any
`sec_type`. -/
def is_short (tr : Trade) : Bool := decide (tr.size < 0)

/-- `Trade.profits_down = target_price1 < underlying_entry_price`. -/
def profits_down (tr : Trade) : Except String Bool :=
  pyLT tr.target_price1 tr.underlying_entry_price

/-- `Trade.profits_up = not profits_down`. -/
def profits_up (tr : Trade) : Except String Bool :=
  (tr.profits_down).map (fun b => !b)

end Trade

/-! ## `src/ibdb.py`: execution registration (`register_executions`) -/

/-- The fields of an `ibapi` `Execution` callback payload that
`register_executions` reads. -/
structure ApiExecution where
  execId : String
  time : String
  orderId : ℤ
  acctNumber : String
  exchange : String
  side : String
  shares : ℚ
  price : ℚ
  cumQty : ℚ
  avgPrice : ℚ
  deriving DecidableEq, Repr

/-- The fields of an `ibapi` contract the registration reads. -/
structure ApiContract where
  key : String
  conId : ℤ
  deriving DecidableEq, Repr

deriving instance DecidableEq for Except

/-- Python `int(s)` as applied to correction-id suffixes: an optional sign
followed by decimal digits; `none` models the `ValueError` Python raises
otherwise (in particular on the empty string).  Underscore grouping and
surrounding whitespace, which `int` also accepts, do not occur here and
are not modelled. -/
def pyInt? (s : String) : Option ℤ :=
  match s.data with
  | '-' :: rest =>
      if rest.length > 0 && rest.all Char.isDigit then some (-(digitsToNat rest : ℤ)) else none
  | '+' :: rest =>
      if rest.length > 0 && rest.all Char.isDigit then some (digitsToNat rest : ℤ) else none
  | l => if l.length > 0 && l.all Char.isDigit then some (digitsToNat l : ℤ) else none

/-- `ibdb._split_exec_correction_id`: split on `.`; a single part has no
correction id; otherwise the base id is everything before the final part
and the final part parses with `int` as the correction number (stripping
one leading `0`).  `int` raises `ValueError` on a malformed suffix — e.g.
`"x.0"` (`int('')`) or `"x.zz"` — and the exception propagates to the
caller. -/
def split_exec_correction_id (exec_id : String) : Except String (String × Option ℤ) :=
  let parts := splitChar '.' exec_id.data
  match parts with
  | [p] => .ok (String.mk p, none)
  | _ =>
      let base := String.mk (joinChar '.' parts.dropLast)
      let c_id := (parts.getLast?).getD []  -- `parts` is non-empty
      let c := match c_id with
        | '0' :: rest => pyInt? (String.mk rest)
        | _ => pyInt? (String.mk c_id)
      match c with
      | some n => .ok (base, some n)
      | none => .error "ValueError"

/-- The row `register_executions` builds for an unseen `exec_id`, given
the already-split `(base_exec_id, correction_id)` pair.  `conv` stands for
`ibutils.get_utc_from_server_time`. -/
def register_new_row (conv : String → ℤ) (bc : String × Option ℤ)
    (x : ApiContract × ApiExecution) : IbExecution :=
  let e := x.2
  { exec_id := e.execId
    base_exec_id := bc.1
    correction_id := bc.2
    order_id := e.orderId
    server_time := e.time
    utc_time := conv e.time
    acc_number := e.acctNumber
    exchange := e.exchange
    side := e.side
    shares := e.shares
    price := e.price
    cum_qty := e.cumQty
    avg_price := e.avgPrice
    contract_id := x.1.key
    ib_contract_id := x.1.conId }

/-- One iteration of the `register_executions` loop: an existing row with
the same `exec_id` is left alone (its `utc_time` back-filled only when
falsy); otherwise a new row is inserted — unless splitting the correction
id raises, in which case nothing is inserted and the exception
propagates. -/
def register_one (conv : String → ℤ) (db : List IbExecution)
    (x : ApiContract × ApiExecution) : Except String (List IbExecution) :=
  let e := x.2
  match db.find? (fun r => r.exec_id == e.execId) with
  | some _ =>
      .ok (db.map (fun r =>
        if r.exec_id == e.execId && r.utc_time == 0 then
          { r with utc_time := conv e.time }
        else r))
  | none =>
      match split_exec_correction_id e.execId with
      | .ok bc => .ok (db ++ [register_new_row conv bc x])
      | .error err => .error err

/-- `ibdb.register_executions` over the executions table.  Each loop
iteration commits its own insert, so the result pairs the table as it
stands when the loop ends with the exception, if one was raised (aborting
the rest of the batch). -/
def register_executions (conv : String → ℤ) (db : List IbExecution) :
    List (ApiContract × ApiExecution) → List IbExecution × Option String
  | [] => (db, none)
  | x :: xs =>
      match register_one conv db x with
      | .ok db2 => register_executions conv db2 xs
      | .error err => (db, some err)

/-! ## `src/ibdb.py`: fill reconciliation gate (`sync_fills`) -/

/-- The completion gate of `sync_fills` for one `placed` order: collect the
order's executions, deduplicate corrections, aggregate the executed
quantity, and skip (`false`) while `abs(qty) < abs(order.qty)`; the order
is marked `complete` exactly when this returns `true`. -/
def sync_fills_completes (o : IbOrder) (trade : Option IbTrade)
    (table : List IbExecution) : Bool :=
  let all_execs := get_executions_by_order_id table o.request_id
  let execs := IbOrder.get_valid_executions all_execs
  let qty := o.get_executed_qty execs trade
  decide (¬ (pyAbs qty < pyAbs (o.qty : ℚ)))

/-! ## `src/ibdb.py`: pre-open check (`sync_pre_check_trades`) -/

/-- Outcome of one `sync_pre_check_trades` iteration: the trade's new
status and the error code of any message registered
(99995 missing legs, 99993 entry out of band). -/
structure PreCheckOutcome where
  status : String
  msg_code : Option ℕ
  deriving DecidableEq, Repr

/-- One iteration of `sync_pre_check_trades` for a `pre-open-check` trade.
`price` is the value returned by `get_trade_market_price` (it returns `0`
when no price could be obtained); `now` is `datetime.utcnow()`.
Order of the source's checks: exited → closed; falsy
`original_entry_price` → open with no further checks; invalid legs → stay
(message after 30 s); falsy price → stay; more than 5% from market → stay
with message; otherwise → open. -/
def sync_pre_check_step (t : IbTrade) (price : ℚ) (now : ℤ) : PreCheckOutcome :=
  if t.date_exited ≠ none then ⟨TradeStatus.CLOSED, none⟩
  else if ¬ truthyQ t.original_entry_price then ⟨TradeStatus.OPEN, none⟩
  else if ¬ t.has_valid_legs then
    ⟨t.status, if t.date_added < now - 30 then some 99995 else none⟩
  else if price = 0 then ⟨t.status, none⟩
  else
    -- `og_entry` is truthy here, so the `getD` default is unreachable.
    let og_entry := t.original_entry_price.getD 0
    let diff := pyAbs (pyAbs og_entry - pyAbs price)
    if pyAbs diff > 5/100 * pyAbs price then ⟨t.status, some 99993⟩
    else ⟨TradeStatus.OPEN, none⟩

/-! ## `src/ibdb.py`: the evaluator (`evaluate_trades`) -/

/-- The trade ids `evaluate_trades` excludes up front: trades with an order
in a pending status, plus trades with a non-excluded order whose
`date_filled` is newer than `EVAL_ORDER_PAUSE_MINUTES` before `now`. -/
def evaluate_excluded_trade_ids (orders : List IbOrder) (now : ℤ) : List ℤ :=
  let order_time := now - EVAL_ORDER_PAUSE_MINUTES * 60
  let open_orders := orders.filter (fun o => OrderStatus.PENDING_STATUSES.contains o.status)
  let recent_trades := orders.filter (fun o =>
    (match o.date_filled with
     | some d => decide (order_time < d)
     | none => false) && o.exclude == 0)
  open_orders.map (fun o => o.trade_id) ++ recent_trades.map (fun o => o.trade_id)

/-- An order row as `register_order` receives it from `evaluate_trades`. -/
structure OrderSpec where
  action : String
  qty : ℚ
  type : String
  price : Option ℚ
  tif : Option String
  offset : Option ℚ
  deriving DecidableEq, Repr

/-- `ibdb.get_trade_limit_price`: pick the price type (`mid`, or `ask` for
BUY / `bid` for SELL), read the market price (the `mkt` oracle stands for
`get_trade_market_price`, which returns `0` when no price is available),
return `0` on a falsy price, apply the percentage offset, and round STK /
BAG / OPT prices to 2 decimals.  An unexpected action raises. -/
def get_trade_limit_price (t : IbTrade) (action : String) (mkt : String → ℚ)
    (use_mid : Bool := LMT_USING_MID) (offset : ℚ := LMT_PCT_OFFSET) : Except String ℚ := do
  let type ←
    if use_mid then pure "mid"
    else if action == "BUY" then pure "ask"
    else if action == "SELL" then pure "bid"
    else .error "TypeError"
  let price := mkt type
  if price = 0 then return 0
  let price :=
    if offset ≠ 0 then
      (if action == "BUY" then 1 + pyAbs offset else 1 - pyAbs offset) * price
    else price
  if t.sec_type == "STK" || t.sec_type == "BAG" || t.sec_type == "OPT" then
    return pyRound2 price
  else
    return price

/-- The target/stop branch of the `evaluate_trades` loop body: returns
`none` for the loop's `continue` (nothing left to close), else
`some (action?, qty?, left)` exactly as the source leaves the three
variables.  `left` is `none` only on the fall-through where the trade is
neither long nor short (the source leaves `left = None`). -/
def eval_direction (t : IbTrade) (table : List IbExecution)
    (price target_price : ℚ) (stop_price : Option ℚ) :
    Except String (Option (Option String × Option ℚ × Option ℚ)) := do
  let bought := t.bought_qty
  let sold := t.sold_qty
  if t.is_long then
    let left := pyAbs bought - pyAbs sold
    if left ≤ 0 then return none
    if ← t.profits_up then
      if price ≥ target_price then do
        let q ← t.target_qty table
        return some (some "SELL", some q, some left)
      else if truthyQ stop_price ∧ price ≤ stop_price.getD 0 then do
        let q ← t.stop_qty table
        return some (some "SELL", some q, some left)
      else return some (none, none, some left)
    else if ← t.profits_down then
      if price ≤ target_price then do
        let q ← t.target_qty table
        return some (some "SELL", some q, some left)
      else if truthyQ stop_price ∧ price ≥ stop_price.getD 0 then do
        let q ← t.stop_qty table
        return some (some "SELL", some q, some left)
      else return some (none, none, some left)
    else return some (none, none, some left)
  else if t.is_short then
    let left := -pyAbs sold + pyAbs bought
    if left ≥ 0 then return none
    if ← t.profits_down then
      if price ≤ target_price then do
        let q ← t.target_qty table
        return some (some "BUY", some q, some left)
      else if truthyQ stop_price ∧ price ≥ stop_price.getD 0 then do
        let q ← t.stop_qty table
        return some (some "BUY", some q, some left)
      else return some (none, none, some left)
    else if ← t.profits_up then
      if price ≥ target_price then do
        let q ← t.target_qty table
        return some (some "BUY", some q, some left)
      else if truthyQ stop_price ∧ price ≤ stop_price.getD 0 then do
        let q ← t.stop_qty table
        return some (some "BUY", some q, some left)
      else return some (none, none, some left)
    else return some (none, none, some left)
  else return some (none, none, none)

/-- The `evaluate_trades` loop body for one already-selected trade.
`p` is the freshest underlying price row (≤ 3 min old, `None` when there is
none), `mkt` stands for `get_trade_market_price` on this trade (the value
it returns per price type, `0` when unavailable).  Returns the order
registered, if any (status `ready`, as `register_order` receives it). -/
def evaluate_trade_step (t : IbTrade) (table : List IbExecution)
    (p : Option ℚ) (mkt : String → ℚ)
    (stocks_open options_open : Bool) : Except String (Option OrderSpec) := do
  match p with
  | none => return none
  | some price =>
  match (t.get_next_target).2 with
  | none => return none
  | some target_price =>
    let stop_price := (t.get_next_stop).2
    match ← eval_direction t table price target_price stop_price with
    | none => return none
    | some (action0, qty0, left) =>
      let mkt_open := if t.sec_type == "STK" then stocks_open else options_open
      let (action, qty, force_market_close) ←
        if action0 = none ∧ t.sec_type == "BAG" then do
          if ← pyGT t.entry_price (some 0) then
            if mkt_open then do
              let cprice ← get_trade_limit_price t "SELL" mkt false 0
              if cprice ≤ EVAL_DEBIT_SPREAD_PANIC_CLOSE_VALUE then do
                let lq ← t.left_qty
                pure (some "SELL", some lq, true)
              else pure (action0, qty0, false)
            else pure (action0, qty0, false)
          else pure (action0, qty0, false)
        else pure (action0, qty0, false)
      match action, qty with
      | some act, some q =>
          if q ≠ 0 ∧ mkt_open then do
            -- `if abs(qty) > abs(left): qty = left`; Python raises when
            -- `left` is still None (unreachable: an action is only ever
            -- set on paths where `left` was assigned).
            let q ←
              match left with
              | some l => pure (if pyAbs q > pyAbs l then l else q)
              | none => Except.error "TypeError"
            if USE_LMT_ORDERS ∧ ¬ force_market_close then
              if t.sec_type == "STK" then
                return some ⟨act, q, "LMT", none, some "PEG MID", some STK_NBBO_OFFSET⟩
              else do
                let cp ← get_trade_limit_price t act mkt
                return some ⟨act, q, "LMT", some cp, none, none⟩
            else
              return some ⟨act, q, "MKT", none, none, none⟩
          else return none
      | _, _ => return none

/-! ## `src/ibdb.py`: the supervisor loop (`run_ib_database`) -/

/-- One trade cycle of `run_ib_database`: the phase functions run in
order inside `try/except`; the handler logs, increments `core_errors`,
rolls back, and then hits a bare `raise`, re-raising the exception —
the `core_errors == 1` notification and the `core_errors >= 7` shutdown
lines that follow it are unreachable.  Phases are modelled by their
outcome; the result carries the updated `core_errors` counter. -/
def run_trade_cycle (phases : List (Except String Unit)) (core_errors : ℕ) :
    Except String ℕ :=
  match phases with
  | [] => .ok core_errors
  | ph :: rest =>
      match ph with
      | .ok _ => run_trade_cycle rest core_errors
      | .error e => .error e

/-- Modelled from the spec: the supervisor cycle the specification
describes ("Any phase exception is counted; the loop tolerates up to ~7
consecutive failures before terminating with an operator notification"):
a phase failure increments the counter and the cycle keeps going,
terminating only once the counter reaches 7. -/
def run_trade_cycle_spec (phases : List (Except String Unit)) (core_errors : ℕ) :
    Except String ℕ :=
  match phases with
  | [] => .ok core_errors
  | ph :: rest =>
      match ph with
      | .ok _ => run_trade_cycle_spec rest core_errors
      | .error e =>
          if core_errors + 1 ≥ 7 then .error e
          else run_trade_cycle_spec rest (core_errors + 1)

/-! ## Concrete scenarios used by the claim proofs -/

/-- An opening BUY order (completed, qty 10) for the OPT scenario. -/
def openOrder9 : IbOrder :=
  { trade_id := 9, contract_id := "XYZ-O", request_id := 1, action := "BUY",
    offset := none, price := none, qty := 10, tif := none, type := "LMT",
    status := "complete", date_filled := some 10, exclude := 0 }

/-- A completed SELL order (qty 4) filled below entry, i.e. a stop exit. -/
def stopOrder9 : IbOrder :=
  { trade_id := 9, contract_id := "XYZ-O", request_id := 2, action := "SELL",
    offset := none, price := none, qty := 4, tif := none, type := "LMT",
    status := "complete", date_filled := some 100, exclude := 0 }

/-- The execution filling `stopOrder9` at 4 (below the entry of 5). -/
def exec9 : IbExecution :=
  { exec_id := "e2", base_exec_id := "e2", correction_id := none, order_id := 2,
    server_time := "t", utc_time := 100, acc_number := "a", exchange := "SMART",
    side := "SLD", shares := 4, price := 4, cum_qty := 4, avg_price := 4,
    contract_id := "XYZ-O", ib_contract_id := 7 }

/-- A long OPT trade with three targets, an opening fill of 10 and one
completed stop exit of 4. -/
def exTrade9 : IbTrade :=
  { id := 9, symbol := "XYZ", sec_type := "OPT", size := 1,
    underlying_entry_price := some 50, original_entry_price := some 5,
    entry_price := some 5,
    target_price1 := some 6, target_price2 := some 7, target_price3 := some 8,
    stop_price1 := some 4, stop_price2 := none,
    date_entered := some 0, date_exited := none, date_added := 0,
    status := "open", u_id := some "u9", contract_id := some "XYZ-O",
    underlying_contract_id := some "XYZ",
    legs := [], orders := [openOrder9, stopOrder9] }

/-- A completed opening BUY of 10 combo units for the BAG scenarios. -/
def openOrder3 : IbOrder :=
  { trade_id := 3, contract_id := "S/BAG", request_id := 21, action := "BUY",
    offset := none, price := none, qty := 10, tif := none, type := "LMT",
    status := "complete", date_filled := some 10, exclude := 0 }

/-- An open BAG trade recorded as a debit spread
(`original_entry_price = 1 > 0`) whose actual fill `entry_price` is `-1`. -/
def exTrade3 : IbTrade :=
  { id := 3, symbol := "S", sec_type := "BAG", size := 1,
    underlying_entry_price := some 3, original_entry_price := some 1,
    entry_price := some (-1),
    target_price1 := some 5, target_price2 := none, target_price3 := none,
    stop_price1 := none, stop_price2 := none,
    date_entered := some 0, date_exited := none, date_added := 0,
    status := "open", u_id := some "u3", contract_id := some "S/BAG",
    underlying_contract_id := some "S",
    legs := [], orders := [openOrder3] }

/-- A market snapshot whose combo mid is 0.01 (≤ 0.02) but whose bid is
0.05 (> 0.02). -/
def mkt3 : String → ℚ := fun s => if s == "mid" then 1/100 else 5/100

/-- `exTrade3` with a positive actual fill price, for the amended claim. -/
def exTrade3w : IbTrade :=
  { exTrade3 with entry_price := some 1 }

/-- A market snapshot whose combo bid is 0.01. -/
def mkt3w : String → ℚ := fun s => if s == "bid" then 1/100 else 5/100

/-- First leg (ratio 1, contract key `A`) of the BAG fill scenario. -/
def leg5A : IbTradeLeg :=
  { trade_id := 5, action := "BUY", ratio := 1, sequence := 1,
    contract_id := "A", ib_contract_id := some 100 }

/-- Second leg (ratio 1, contract key `B`) of the BAG fill scenario. -/
def leg5B : IbTradeLeg :=
  { trade_id := 5, action := "SELL", ratio := 1, sequence := 2,
    contract_id := "B", ib_contract_id := some 101 }

/-- A placed BAG order of 5 combo units. -/
def order5 : IbOrder :=
  { trade_id := 5, contract_id := "S/BAG", request_id := 11, action := "BUY",
    offset := none, price := none, qty := 5, tif := none, type := "LMT",
    status := "placed", date_filled := none, exclude := 0 }

/-- Leg `A` fully filled: 5 of 5 units. -/
def execA : IbExecution :=
  { exec_id := "a1", base_exec_id := "a1", correction_id := none, order_id := 11,
    server_time := "t", utc_time := 50, acc_number := "a", exchange := "SMART",
    side := "BOT", shares := 5, price := 2, cum_qty := 5, avg_price := 2,
    contract_id := "A", ib_contract_id := 100 }

/-- Leg `B` one unit short: 3 of 5 units. -/
def execB : IbExecution :=
  { exec_id := "b1", base_exec_id := "b1", correction_id := none, order_id := 11,
    server_time := "t", utc_time := 51, acc_number := "a", exchange := "SMART",
    side := "SLD", shares := 3, price := 1, cum_qty := 3, avg_price := 1,
    contract_id := "B", ib_contract_id := 101 }

/-- Leg `B` fully filled (5 of 5), for the completion witness. -/
def execBfull : IbExecution :=
  { execB with cum_qty := 5, shares := 5 }

/-- A two-leg BAG trade whose placed order is `order5`. -/
def exTrade5 : IbTrade :=
  { id := 5, symbol := "S", sec_type := "BAG", size := 1,
    underlying_entry_price := some 3, original_entry_price := some 1,
    entry_price := some 1,
    target_price1 := some 5, target_price2 := none, target_price3 := none,
    stop_price1 := none, stop_price2 := none,
    date_entered := some 0, date_exited := none, date_added := 0,
    status := "open", u_id := some "u5", contract_id := some "S/BAG",
    underlying_contract_id := some "S",
    legs := [leg5A, leg5B], orders := [order5] }

/-- A pre-open-check BAG trade with no `original_entry_price`, an
unresolved leg, and no market price. -/
def exTrade4 : IbTrade :=
  { id := 4, symbol := "S", sec_type := "BAG", size := 1,
    underlying_entry_price := some 3, original_entry_price := none,
    entry_price := none,
    target_price1 := some 5, target_price2 := none, target_price3 := none,
    stop_price1 := none, stop_price2 := none,
    date_entered := none, date_exited := none, date_added := 0,
    status := "pre-open-check", u_id := some "u4", contract_id := some "S/BAG",
    underlying_contract_id := some "S",
    legs := [{ trade_id := 4, action := "BUY", ratio := 1, sequence := 1,
               contract_id := "A", ib_contract_id := none }],
    orders := [] }

/-- A pre-open-check trade that passes the 5% sanity check. -/
def exTrade4w : IbTrade :=
  { exTrade4 with
    original_entry_price := some 1,
    legs := [{ trade_id := 4, action := "BUY", ratio := 1, sequence := 1,
               contract_id := "A", ib_contract_id := some 100 }] }

/-- A non-excluded order filled at t = 880, i.e. 120 seconds before the
evaluation at t = 1000. -/
def exOrder2 : IbOrder :=
  { trade_id := 7, contract_id := "C", request_id := 31, action := "SELL",
    offset := none, price := none, qty := 1, tif := none, type := "MKT",
    status := "complete", date_filled := some 880, exclude := 0 }

/-- A sheet-level BAG trade with negative size. -/
def exTrade8t : Trade :=
  { size := -1, sec_type := some "BAG", target_price1 := some 5,
    underlying_entry_price := some 3 }

/-- A db-level BAG trade (only `sec_type` matters for `is_long`). -/
def exTrade8i : IbTrade :=
  { exTrade5 with id := 8, size := -1 }

/-- A sheet-level trade whose first target equals the underlying entry. -/
def exTrade7t : Trade :=
  { size := 1, sec_type := some "OPT", target_price1 := some 5,
    underlying_entry_price := some 5 }

/-- A db-level trade whose first target equals the underlying entry. -/
def exTrade7i : IbTrade :=
  { exTrade9 with
    id := 70
    target_price1 := some 5
    underlying_entry_price := some 5 }

/-- A fixed stand-in for `ibutils.get_utc_from_server_time`. -/
def conv0 : String → ℤ := fun _ => 42

/-- An execution payload (with a correction suffix in its id) delivered by
the broker. -/
def payload6 : ApiContract × ApiExecution :=
  ({ key := "A", conId := 100 },
   { execId := "x.01", time := "t1", orderId := 11, acctNumber := "ac",
     exchange := "SMART", side := "BOT", shares := 2, price := 3, cumQty := 2,
     avgPrice := 3 })

/-- The specification's BAG aggregation rule, stated from the spec's words
("aggregate executed quantity as the minimum across legs of
`leg_executed_shares / leg.ratio`") for comparison with the source's
`IbOrder.get_executed_bag_qty`. -/
def bag_executed_qty_spec (execs : List IbExecution) (t : IbTrade) : ℚ :=
  let legQty := t.legs.map (fun leg =>
    (((execs.filter (fun b => b.contract_id == leg.contract_id)).map
        (fun b => b.cum_qty)).foldr max 0) / (leg.ratio : ℚ))
  match legQty with
  | [] => 0
  | q :: rest => rest.foldl min q

/-! ## Helper lemmas -/

/-- `pyAbs` agrees with the absolute value. -/
theorem pyAbs_eq_abs (q : ℚ) : pyAbs q = |q| := by
  unfold pyAbs
  rcases lt_or_ge q 0 with h | h
  · rw [if_pos h, abs_of_neg h]
  · rw [if_neg (not_lt.mpr h), abs_of_nonneg h]

/-- In a list sorted by `r`, every member is the last element or related to
it by `r`. -/
theorem sorted_getLast?_ub {α : Type} {r : α → α → Prop} :
    ∀ {l : List α} {v : α}, l.Sorted r → l.getLast? = some v →
      ∀ x ∈ l, x = v ∨ r x v := by
  intro l
  induction l with
  | nil => intro v _ hv x hx; cases hx
  | cons a l ih =>
      intro v hs hv x hx
      cases l with
      | nil =>
          simp only [List.getLast?_singleton, Option.some.injEq] at hv
          rcases List.mem_singleton.mp hx with h
          exact Or.inl (h.trans hv)
      | cons b l' =>
          rw [List.getLast?_cons_cons] at hv
          rcases List.mem_cons.mp hx with h | h
          · subst h
            have hvmem : v ∈ b :: l' := by
              rcases List.mem_getLast?_eq_getLast hv with ⟨hne, hveq⟩
              exact hveq ▸ List.getLast_mem hne
            exact Or.inr ((List.pairwise_cons.mp hs).1 v hvmem)
          · exact ih hs.of_cons hv x h

/-! ## Claim C1 -/

/-- Claim C1: the supervisor loop's per-phase exception handler hits an
unconditional bare `raise` before its tolerance logic, so one failing
phase aborts the cycle (and the loop) no matter how many phases succeeded
before it and whatever `core_errors` is, while the spec-described handler
(`run_trade_cycle_spec`) survives a first failure. -/
theorem claim_C1_single_phase_exception_terminates_cycle :
    (∀ (k : ℕ) (rest : List (Except String Unit)) (e : String) (core_errors : ℕ),
      run_trade_cycle (List.replicate k (Except.ok ()) ++ Except.error e :: rest) core_errors
        = Except.error e)
    ∧ run_trade_cycle_spec [Except.error "boom"] 0 = Except.ok 1 := by
  constructor
  · intro k rest e n
    induction k with
    | zero => rfl
    | succ k ih => simpa [List.replicate_succ, run_trade_cycle] using ih
  · rfl

/-! ## Claim C2 -/

/-- Claim C2 (counterexample): an order filled 120 seconds before the
evaluation — older than the claimed 60-second cooldown — still puts its
trade on the evaluator's exclusion list. -/
theorem claim_C2_counterexample :
    exOrder2.exclude = 0 ∧ exOrder2.date_filled = some 880 ∧
    (60 : ℤ) ≤ 1000 - 880 ∧
    evaluate_excluded_trade_ids [exOrder2] 1000 = [7] :=
  ⟨rfl, rfl, by norm_num, by rfl⟩

/-- Claim C2 (amended): the per-trade pause is `EVAL_ORDER_PAUSE_MINUTES`
= 5 minutes, not 60 seconds: a trade is excluded from evaluation exactly
when it has an order in a pending status or a non-excluded order filled
strictly less than 300 seconds ago. -/
theorem claim_C2_amended_five_minute_cooldown (orders : List IbOrder) (now tid : ℤ) :
    tid ∈ evaluate_excluded_trade_ids orders now ↔
      ∃ o ∈ orders, o.trade_id = tid ∧
        (o.status ∈ OrderStatus.PENDING_STATUSES ∨
          (∃ d, o.date_filled = some d ∧ now - 300 < d ∧ o.exclude = 0)) := by
  unfold evaluate_excluded_trade_ids
  simp only [EVAL_ORDER_PAUSE_MINUTES, List.mem_append, List.mem_map, List.mem_filter]
  constructor
  · rintro (⟨o, ⟨ho, hp⟩, rfl⟩ | ⟨o, ⟨ho, hr⟩, rfl⟩)
    · refine ⟨o, ho, rfl, Or.inl ?_⟩
      simpa [List.elem_iff] using hp
    · refine ⟨o, ho, rfl, Or.inr ?_⟩
      rw [Bool.and_eq_true] at hr
      obtain ⟨hm, hx⟩ := hr
      cases hdf : o.date_filled with
      | none => rw [hdf] at hm; simp at hm
      | some d =>
          rw [hdf] at hm
          simp only [decide_eq_true_eq] at hm
          refine ⟨d, rfl, by omega, by simpa using hx⟩
  · rintro ⟨o, ho, rfl, hp | ⟨d, hdf, hlt, hx⟩⟩
    · exact Or.inl ⟨o, ⟨ho, by simpa [List.elem_iff] using hp⟩, rfl⟩
    · refine Or.inr ⟨o, ⟨ho, ?_⟩, rfl⟩
      rw [Bool.and_eq_true, hdf]
      exact ⟨by simp only [decide_eq_true_eq]; omega, by simpa using hx⟩

/-! ## Claim C7 -/

/-- Claim C7 (counterexample): a sheet-level trade whose first target
equals the underlying entry has `profits_up` true (the `ibtrade.Trade`
version is the negation of `<`), although the claim demands it be false
there. -/
theorem claim_C7_counterexample :
    exTrade7t.target_price1 = some 5 ∧
    exTrade7t.underlying_entry_price = some 5 ∧
    Trade.profits_up exTrade7t = Except.ok true ∧
    ¬ ((5 : ℚ) > 5) :=
  ⟨rfl, rfl, by rfl, by norm_num⟩

/-- Claim C7 (amended): with both prices set, the db-level
`IbTrade.profits_up` is the claimed strict comparison, but the sheet-level
`Trade.profits_up` is `not profits_down`, i.e. `target ≥ entry`, so the
two versions differ exactly at equality. -/
theorem claim_C7_amended_profits_up (t : IbTrade) (tr : Trade) (a b : ℚ)
    (h1 : t.target_price1 = some a) (h2 : t.underlying_entry_price = some b)
    (h3 : tr.target_price1 = some a) (h4 : tr.underlying_entry_price = some b) :
    (IbTrade.profits_up t = Except.ok true ↔ b < a) ∧
    (Trade.profits_up tr = Except.ok true ↔ b ≤ a) := by
  unfold IbTrade.profits_up Trade.profits_up Trade.profits_down pyGT pyLT
  rw [h1, h2, h3, h4]
  constructor
  · simp [gt_iff_lt]
  · simp [Except.map, not_lt]

/-- Claim C7 (witness): the amended statement applied at the equal-prices
trade pair. -/
theorem claim_C7_witness :
    (IbTrade.profits_up exTrade7i = Except.ok true ↔ (5 : ℚ) < 5) ∧
    (Trade.profits_up exTrade7t = Except.ok true ↔ (5 : ℚ) ≤ 5) :=
  claim_C7_amended_profits_up exTrade7i exTrade7t 5 5 rfl rfl rfl rfl

/-! ## Claim C8 -/

/-- Claim C8 (counterexample): a sheet-level BAG trade with negative size
is not long (and is short) under `ibtrade.Trade`, refuting "for every
trade whose sec_type is BAG, is_long is true and is_short is false". -/
theorem claim_C8_counterexample :
    exTrade8t.sec_type = some "BAG" ∧ exTrade8t.size = -1 ∧
    Trade.is_long exTrade8t = false ∧ Trade.is_short exTrade8t = true :=
  ⟨rfl, rfl, by rfl, by rfl⟩

/-- Claim C8 (amended): the db-level `IbTrade` treats every BAG trade as
long and never short, independent of `size`; the sheet-level
`ibtrade.Trade` ignores `sec_type` entirely and derives both flags from
the sign of `size`. -/
theorem claim_C8_amended_bag_is_long :
    (∀ t : IbTrade, t.sec_type = "BAG" → IbTrade.is_long t = true ∧ IbTrade.is_short t = false)
    ∧ (∀ tr : Trade, Trade.is_long tr = decide (tr.size > 0)
        ∧ Trade.is_short tr = decide (tr.size < 0)) := by
  constructor
  · intro t ht
    unfold IbTrade.is_long IbTrade.is_short
    rw [ht]
    exact ⟨rfl, rfl⟩
  · intro tr
    exact ⟨rfl, rfl⟩

/-- Claim C8 (witness): the amended statement applied at a BAG db-trade of
negative size. -/
theorem claim_C8_witness :
    IbTrade.is_long exTrade8i = true ∧ IbTrade.is_short exTrade8i = false :=
  claim_C8_amended_bag_is_long.1 exTrade8i rfl

/-! ## Claim C10 -/

/-- Claim C10 (counterexample): the entry `"0"` parses to the price `0`,
yet `get_prices_list` replaces it with the default `None` (the source's
`ensure_price(y) or default` also clobbers falsy zero prices), so the
result is not "the first n entries parsed as prices with only unparsable
entries replaced by the default". -/
theorem claim_C10_counterexample :
    ensure_price "0" = some 0 ∧
    get_prices_list "0,1,2" 3 = [none, some 1, some 2] :=
  ⟨by decide, by decide⟩

/-- Claim C10 (amended): `get_prices_list x n` is total and returns exactly
`n` elements; element `i` is the `i`-th comma-separated entry mapped
through `ensure_price(y) or None` (so unparsable entries *and entries that
parse to 0* become `None`), with missing positions `None` and entries
beyond the first `n` dropped. -/
theorem claim_C10_amended_price_list (x : String) (n : ℕ) (_hn : 0 < n) :
    (get_prices_list x n).length = n ∧
    ∀ i, i < n → (get_prices_list x n)[i]? =
      some ((((pySplit ',' x).map price_list_entry)[i]?).getD none) := by
  unfold get_prices_list
  set l := (pySplit ',' x).map price_list_entry with hl
  by_cases h : l.length < n
  · simp only [if_pos h]
    constructor
    · simp only [List.length_take, List.length_append, List.length_replicate]
      omega
    · intro i hi
      rw [List.getElem?_take, if_pos hi]
      by_cases hil : i < l.length
      · rw [List.getElem?_append, if_pos hil, List.getElem?_eq_getElem hil]
        simp
      · rw [List.getElem?_append, if_neg hil, List.getElem?_replicate,
          if_pos (by omega)]
        rw [List.getElem?_eq_none (by omega)]
        simp
  · simp only [if_neg h]
    constructor
    · simp only [List.length_take]
      omega
    · intro i hi
      rw [List.getElem?_take, if_pos hi, List.getElem?_eq_getElem (by omega)]
      simp

/-- Claim C10 (witness): the amended statement applied at a two-entry
string and `n = 3`. -/
theorem claim_C10_witness :
    (get_prices_list "1.5,2" 3).length = 3 ∧
    ∀ i, i < 3 → (get_prices_list "1.5,2" 3)[i]? =
      some ((((pySplit ',' "1.5,2").map price_list_entry)[i]?).getD none) :=
  claim_C10_amended_price_list "1.5,2" 3 (by decide)

/-! ## Claim C4 -/

/-- Claim C4 (counterexample): a pre-open-check trade with no
`original_entry_price` is released straight to `open` even though its leg
lacks a broker contract id and no market price is available. -/
theorem claim_C4_counterexample :
    exTrade4.status = TradeStatus.PRE_OPEN_CHECK ∧
    exTrade4.date_exited = none ∧
    exTrade4.original_entry_price = none ∧
    IbTrade.has_valid_legs exTrade4 = false ∧
    sync_pre_check_step exTrade4 0 1000 = ⟨TradeStatus.OPEN, none⟩ :=
  ⟨rfl, rfl, rfl, by decide, by decide⟩

/-- Claim C4 (amended): a pre-open-check, not-yet-exited trade moves to
`open` either immediately when `original_entry_price` is falsy (no leg or
price check at all), or — when it is set — exactly when the legs are
resolved, a market price is available, and the original entry is within 5%
of it. -/
theorem claim_C4_amended_pre_open_check (t : IbTrade) (price : ℚ) (now : ℤ)
    (hstatus : t.status = TradeStatus.PRE_OPEN_CHECK) :
    ((sync_pre_check_step t price now).status = TradeStatus.OPEN ↔
      t.date_exited = none ∧
        (truthyQ t.original_entry_price = false ∨
          (IbTrade.has_valid_legs t = true ∧ price ≠ 0 ∧
            pyAbs (pyAbs (t.original_entry_price.getD 0) - pyAbs price)
              ≤ 5/100 * pyAbs price))) := by
  unfold sync_pre_check_step
  split_ifs with h1 h2 h3 h4 h5 <;>
    simp_all [TradeStatus.PRE_OPEN_CHECK, TradeStatus.OPEN, TradeStatus.CLOSED,
      pyAbs_eq_abs, abs_abs, not_lt, le_abs_self]
  split_ifs with h5 <;> simp_all [pyAbs_eq_abs, abs_abs, not_lt]

/-- Claim C4 (witness): the amended statement applied at a resolved trade
with a price matching its original entry. -/
theorem claim_C4_witness :
    (sync_pre_check_step exTrade4w 1 1000).status = TradeStatus.OPEN ↔
      exTrade4w.date_exited = none ∧
        (truthyQ exTrade4w.original_entry_price = false ∨
          (IbTrade.has_valid_legs exTrade4w = true ∧ (1 : ℚ) ≠ 0 ∧
            pyAbs (pyAbs (exTrade4w.original_entry_price.getD 0) - pyAbs 1)
              ≤ 5/100 * pyAbs 1)) :=
  claim_C4_amended_pre_open_check exTrade4w 1 1000 rfl

/-! ## Claim C9 -/

unseal Rat.add Rat.sub Rat.mul Rat.inv in
/-- Claim C9 (counterexample): a trade with three targets, no completed
target exits and one completed stop exit returns `left_qty` (6) from
`target_qty`, although the claim prescribes `round(total_qty /
number_of_targets)` = 3 there (completed targets `0 ≠ 3 − 1`). -/
theorem claim_C9_counterexample :
    (IbTrade.get_target_and_stop_orders exTrade9 [exec9]).map
        (fun p => (p.1.length, p.2.length)) = Except.ok (0, 1) ∧
    (IbTrade.target_prices exTrade9).length = 3 ∧
    IbTrade.target_qty exTrade9 [exec9] = Except.ok 6 ∧
    pyRound0 ((10 : ℚ) / 3) = 3 ∧
    (6 : ℚ) ≠ 3 :=
  ⟨by decide, by decide, by decide, by decide, by norm_num⟩

/-- Claim C9 (amended): `target_qty` returns `left_qty` when *either* a
stop exit has completed *or* the completed-target count equals
`number_of_targets − 1`, and `round(total_qty / number_of_targets)` only
otherwise; symmetrically `stop_qty` also short-circuits to `left_qty`
whenever any target exit exists. -/
theorem claim_C9_amended_target_qty (t : IbTrade) (table : List IbExecution)
    (tg st : List (IbOrder × List IbExecution))
    (h : IbTrade.get_target_and_stop_orders t table = Except.ok (tg, st)) :
    (IbTrade.target_qty t table =
      if st ≠ [] ∨ (tg.length : ℤ) = (t.target_prices.length : ℤ) - 1 then t.left_qty
      else match t.total_qty with
        | none => Except.error "TypeError"
        | some tq =>
            if t.target_prices.length = 0 then Except.error "ZeroDivisionError"
            else Except.ok (pyRound0 (tq / (t.target_prices.length : ℚ))))
    ∧ (IbTrade.stop_qty t table =
      if tg ≠ [] ∨ (st.length : ℤ) = (t.stop_prices.length : ℤ) - 1 then t.left_qty
      else match t.total_qty with
        | none => Except.error "TypeError"
        | some tq =>
            if t.stop_prices.length = 0 then Except.error "ZeroDivisionError"
            else Except.ok (pyRound0 (tq / (t.stop_prices.length : ℚ)))) := by
  unfold IbTrade.target_qty IbTrade.stop_qty
  rw [h]
  constructor <;> rfl

unseal Rat.add Rat.sub Rat.mul Rat.inv in
/-- Claim C9 (witness): the amended statement applied at the
one-stop-exit trade. -/
theorem claim_C9_witness :
    IbTrade.target_qty exTrade9 [exec9] =
      (if ([(stopOrder9, [exec9])] : List (IbOrder × List IbExecution)) ≠ [] ∨
          (([] : List (IbOrder × List IbExecution)).length : ℤ)
            = ((IbTrade.target_prices exTrade9).length : ℤ) - 1 then exTrade9.left_qty
      else match exTrade9.total_qty with
        | none => Except.error "TypeError"
        | some tq =>
            if (IbTrade.target_prices exTrade9).length = 0 then Except.error "ZeroDivisionError"
            else Except.ok (pyRound0 (tq / ((IbTrade.target_prices exTrade9).length : ℚ)))) ∧
    IbTrade.stop_qty exTrade9 [exec9] =
      (if ([] : List (IbOrder × List IbExecution)) ≠ [] ∨
          (([(stopOrder9, [exec9])] : List (IbOrder × List IbExecution)).length : ℤ)
            = ((IbTrade.stop_prices exTrade9).length : ℤ) - 1 then exTrade9.left_qty
      else match exTrade9.total_qty with
        | none => Except.error "TypeError"
        | some tq =>
            if (IbTrade.stop_prices exTrade9).length = 0 then Except.error "ZeroDivisionError"
            else Except.ok (pyRound0 (tq / ((IbTrade.stop_prices exTrade9).length : ℚ)))) :=
  claim_C9_amended_target_qty exTrade9 [exec9] [] [(stopOrder9, [exec9])] (by decide)

/-! ## Claim C5 -/

unseal Rat.add Rat.sub Rat.mul Rat.inv in
/-- Claim C5 (counterexample): with leg `A` filled 5/5 and leg `B` filled
3/5 on an order of 5, the source aggregation returns 0 — not the
minimum across legs (3) the claim states — and the order is not
completed. -/
theorem claim_C5_counterexample :
    IbOrder.get_executed_bag_qty order5 [execA, execB] exTrade5 = 0 ∧
    bag_executed_qty_spec [execA, execB] exTrade5 = 3 ∧
    (0 : ℚ) ≠ 3 ∧
    sync_fills_completes order5 (some exTrade5) [execA, execB] = false :=
  ⟨by decide, by decide, by norm_num, by decide⟩

/-- Claim C5 (amended): the BAG aggregation is all-or-nothing, not a
minimum: a BAG order completes in `sync_fills` exactly when every leg has
a deduplicated execution whose `cum_qty / ratio` equals `order.qty`
exactly, and the aggregated quantity is always either `order.qty` or 0
(so one leg short of `order.qty` reports 0 and is not completed). -/
theorem claim_C5_amended_bag_completion (t : IbTrade) (o : IbOrder) (table : List IbExecution)
    (hsec : t.sec_type = "BAG") (hq : 0 < o.qty) (hlegs : t.legs ≠ []) :
    (sync_fills_completes o (some t) table = true ↔
      ∀ leg ∈ t.legs,
        ∃ e ∈ IbOrder.get_valid_executions (get_executions_by_order_id table o.request_id),
          e.contract_id = leg.contract_id ∧ e.cum_qty / (leg.ratio : ℚ) = (o.qty : ℚ))
    ∧ (IbOrder.get_executed_bag_qty o
          (IbOrder.get_valid_executions (get_executions_by_order_id table o.request_id)) t
            = (o.qty : ℚ)
       ∨ IbOrder.get_executed_bag_qty o
          (IbOrder.get_valid_executions (get_executions_by_order_id table o.request_id)) t
            = 0) := by
  set execs := IbOrder.get_valid_executions (get_executions_by_order_id table o.request_id)
    with hex
  have hoq : (0 : ℚ) < (o.qty : ℚ) := by exact_mod_cast hq
  have hpa : pyAbs (o.qty : ℚ) = (o.qty : ℚ) := by
    rw [pyAbs_eq_abs, abs_of_pos hoq]
  have hpz : pyAbs 0 = (0 : ℚ) := by rw [pyAbs_eq_abs, abs_zero]
  constructor
  · unfold sync_fills_completes IbOrder.get_executed_qty
    simp only []
    rw [← hex]
    by_cases hemp : execs.isEmpty
    · simp only [hemp, if_true, hpz, hpa]
      rw [decide_eq_true_iff]
      constructor
      · intro hcon
        exact absurd hoq hcon
      · intro hall
        rcases List.exists_mem_of_ne_nil t.legs hlegs with ⟨leg, hleg⟩
        rcases hall leg hleg with ⟨e, he, _⟩
        rw [List.isEmpty_iff] at hemp
        rw [hemp] at he
        cases he
    · rw [Bool.not_eq_true] at hemp
      simp only [hemp, Bool.false_eq_true, if_false, hsec, beq_self_eq_true, if_true]
      unfold IbOrder.get_executed_bag_qty
      by_cases hall : t.legs.all (fun leg => execs.any (fun b =>
          b.contract_id == leg.contract_id && b.cum_qty / (leg.ratio : ℚ) == (o.qty : ℚ)))
      · simp only [hall, if_true, hpa]
        rw [decide_eq_true_iff]
        constructor
        · intro _
          intro leg hleg
          rw [List.all_eq_true] at hall
          rcases List.any_eq_true.mp (hall leg hleg) with ⟨e, he, hpred⟩
          rw [Bool.and_eq_true, beq_iff_eq, beq_iff_eq] at hpred
          exact ⟨e, he, hpred.1, hpred.2⟩
        · intro _
          exact lt_irrefl ((o.qty : ℚ))
      · simp only [hall, if_false, hpz, hpa]
        rw [decide_eq_true_iff]
        constructor
        · intro hcon
          exact absurd hoq hcon
        · intro hforall
          exfalso
          apply hall
          rw [List.all_eq_true]
          intro leg hleg
          rcases hforall leg hleg with ⟨e, he, h1, h2⟩
          rw [List.any_eq_true]
          exact ⟨e, he, by rw [Bool.and_eq_true, beq_iff_eq, beq_iff_eq]; exact ⟨h1, h2⟩⟩
  · unfold IbOrder.get_executed_bag_qty
    split_ifs with hall
    · exact Or.inl rfl
    · exact Or.inr rfl

unseal Rat.add Rat.sub Rat.mul Rat.inv in
/-- Claim C5 (witness): the amended statement applied at the fully filled
two-leg order. -/
theorem claim_C5_witness :
    (sync_fills_completes order5 (some exTrade5) [execA, execBfull] = true ↔
      ∀ leg ∈ exTrade5.legs,
        ∃ e ∈ IbOrder.get_valid_executions
            (get_executions_by_order_id [execA, execBfull] order5.request_id),
          e.contract_id = leg.contract_id ∧ e.cum_qty / (leg.ratio : ℚ) = (order5.qty : ℚ))
    ∧ (IbOrder.get_executed_bag_qty order5
          (IbOrder.get_valid_executions
            (get_executions_by_order_id [execA, execBfull] order5.request_id)) exTrade5
            = (order5.qty : ℚ)
       ∨ IbOrder.get_executed_bag_qty order5
          (IbOrder.get_valid_executions
            (get_executions_by_order_id [execA, execBfull] order5.request_id)) exTrade5
            = 0) :=
  claim_C5_amended_bag_completion exTrade5 order5 [execA, execBfull] rfl (by decide) (by decide)

/-! ## Claim C6 -/

instance : IsTotal IbExecution (fun a b => a.utc_time ≤ b.utc_time) :=
  ⟨fun a b => le_total a.utc_time b.utc_time⟩

instance : IsTrans IbExecution (fun a b => a.utc_time ≤ b.utc_time) :=
  ⟨fun _ _ _ hab hbc => le_trans hab hbc⟩

/-- One `register_executions` step on an unseen, well-formed `exec_id`:
the new row is appended and no exception is raised. -/
theorem register_executions_single_ok (conv : String → ℤ) (db : List IbExecution)
    (x : ApiContract × ApiExecution) (bc : String × Option ℤ)
    (hnone : db.find? (fun r => r.exec_id == x.2.execId) = none)
    (hbc : split_exec_correction_id x.2.execId = Except.ok bc) :
    register_executions conv db [x] = (db ++ [register_new_row conv bc x], none) := by
  unfold register_executions register_one
  simp only []
  rw [hnone, hbc]
  rfl

/-- One `register_executions` step on an already-stored `exec_id`: the
table is only mapped (back-filling a falsy `utc_time`), nothing is
inserted. -/
theorem register_executions_single_found (conv : String → ℤ) (db : List IbExecution)
    (x : ApiContract × ApiExecution) (w : IbExecution)
    (hfind : db.find? (fun r => r.exec_id == x.2.execId) = some w) :
    register_executions conv db [x] =
      (db.map (fun r =>
        if r.exec_id == x.2.execId && r.utc_time == 0 then
          { r with utc_time := conv x.2.time }
        else r), none) := by
  unfold register_executions register_one
  simp only []
  rw [hfind]
  rfl

/-- One `register_executions` step on an unseen, *malformed* `exec_id`:
`int()` raises `ValueError`, nothing is stored, and the exception
propagates. -/
theorem register_executions_single_err (conv : String → ℤ) (db : List IbExecution)
    (x : ApiContract × ApiExecution) (err : String)
    (hnone : db.find? (fun r => r.exec_id == x.2.execId) = none)
    (herr : split_exec_correction_id x.2.execId = Except.error err) :
    register_executions conv db [x] = (db, some err) := by
  unfold register_executions register_one
  simp only []
  rw [hnone, herr]

/-- Claim C6: registering the same `(exec_id, payload)` twice leaves a
single row for that `exec_id` when the id's correction suffix parses
(registration is idempotent in `exec_id`); when the suffix is malformed,
`int()` raises `ValueError` and *nothing* is stored, so re-delivery is
still duplicate-free; and every execution `get_valid_executions` keeps
has the maximal `utc_time` within its `base_exec_id` group. -/
theorem claim_C6_exec_dedup :
    (∀ (conv : String → ℤ) (db : List IbExecution) (x : ApiContract × ApiExecution)
        (bc : String × Option ℤ),
      split_exec_correction_id x.2.execId = Except.ok bc →
      (db.filter (fun r => r.exec_id == x.2.execId)).length = 0 →
      ((register_executions conv (register_executions conv db [x]).1 [x]).1.filter
          (fun r => r.exec_id == x.2.execId)).length = 1)
    ∧ (∀ (conv : String → ℤ) (db : List IbExecution) (x : ApiContract × ApiExecution)
        (err : String),
      split_exec_correction_id x.2.execId = Except.error err →
      (db.filter (fun r => r.exec_id == x.2.execId)).length = 0 →
      register_executions conv db [x] = (db, some err))
    ∧ (∀ (execs : List IbExecution) (v : IbExecution),
        v ∈ IbOrder.get_valid_executions execs →
          v ∈ execs ∧ ∀ e ∈ execs, e.base_exec_id = v.base_exec_id →
            e.utc_time ≤ v.utc_time) := by
  have hfind_of_len0 : ∀ (db : List IbExecution) (p : IbExecution → Bool),
      (db.filter p).length = 0 → db.find? p = none := by
    intro db p h0
    rw [List.find?_eq_none]
    intro r hr hpr
    have hmem : r ∈ db.filter p := List.mem_filter.mpr ⟨hr, hpr⟩
    rw [List.length_eq_zero] at h0
    rw [h0] at hmem
    cases hmem
  refine ⟨?_, ?_, ?_⟩
  · intro conv db x bc hbc h0
    set p : IbExecution → Bool := fun r => r.exec_id == x.2.execId with hp
    have hnone : db.find? p = none := hfind_of_len0 db p h0
    rw [register_executions_single_ok conv db x bc hnone hbc]
    simp only []
    have hprow : p (register_new_row conv bc x) = true := by
      simp [hp, register_new_row]
    have hlen1 : ((db ++ [register_new_row conv bc x]).filter p).length = 1 := by
      rw [List.filter_append]
      rw [List.length_append]
      rw [List.length_eq_zero] at h0
      rw [h0]
      simp [hprow]
    have hfind2 : (db ++ [register_new_row conv bc x]).find? p ≠ none := by
      intro hnone2
      rw [List.find?_eq_none] at hnone2
      have hmem : register_new_row conv bc x ∈ db ++ [register_new_row conv bc x] :=
        List.mem_append.mpr (Or.inr (List.mem_singleton.mpr rfl))
      exact (hnone2 (register_new_row conv bc x) hmem) hprow
    obtain ⟨w, hw⟩ : ∃ w, (db ++ [register_new_row conv bc x]).find? p = some w := by
      cases hf : (db ++ [register_new_row conv bc x]).find? p with
      | none => exact absurd hf hfind2
      | some w => exact ⟨w, rfl⟩
    rw [register_executions_single_found conv (db ++ [register_new_row conv bc x]) x w hw]
    simp only []
    rw [← List.countP_eq_length_filter, List.countP_map]
    rw [← List.countP_eq_length_filter] at hlen1
    rw [← hlen1]
    apply List.countP_congr
    intro r _
    simp only [Function.comp_apply]
    split
    · simp [hp]
    · rfl
  · intro conv db x err herr h0
    exact register_executions_single_err conv db x err
      (hfind_of_len0 db (fun r => r.exec_id == x.2.execId) h0) herr
  · intro execs v hv
    unfold IbOrder.get_valid_executions at hv
    simp only [] at hv
    rcases List.mem_filterMap.mp hv with ⟨bid, _, hlast⟩
    have hsorted : (sortByUtc (execs.filter (fun e => e.base_exec_id == bid))).Sorted
        (fun a b => a.utc_time ≤ b.utc_time) := List.sorted_insertionSort _ _
    have hvmem : v ∈ sortByUtc (execs.filter (fun e => e.base_exec_id == bid)) := by
      rcases List.mem_getLast?_eq_getLast (by simpa using hlast) with ⟨hne, hveq⟩
      exact hveq ▸ List.getLast_mem hne
    have hvfil : v ∈ execs.filter (fun e => e.base_exec_id == bid) := by
      simpa [sortByUtc] using hvmem
    have hvexecs : v ∈ execs := List.mem_of_mem_filter hvfil
    have hvbid : v.base_exec_id = bid := by
      have := (List.mem_filter.mp hvfil).2
      simpa using this
    refine ⟨hvexecs, ?_⟩
    intro e he hbe
    have hefil : e ∈ execs.filter (fun e => e.base_exec_id == bid) := by
      rw [List.mem_filter]
      exact ⟨he, by simp [hbe, hvbid]⟩
    have hesort : e ∈ sortByUtc (execs.filter (fun e => e.base_exec_id == bid)) := by
      simpa [sortByUtc] using hefil
    rcases sorted_getLast?_ub hsorted hlast e hesort with h | h
    · rw [h]
    · exact h

/-- A correction execution superseding `execA` (same base id, later
`utc_time`). -/
def execA2 : IbExecution :=
  { execA with
    exec_id := "a1.01"
    correction_id := some 1
    utc_time := 60
    avg_price := 99 }

/-- The same delivery with the malformed exec id `"x.0"`: Python\'s
`int(\'\')` raises `ValueError` before anything is stored. -/
def payload6b : ApiContract × ApiExecution :=
  ({ key := "A", conId := 100 },
   { execId := "x.0", time := "t1", orderId := 11, acctNumber := "ac",
     exchange := "SMART", side := "BOT", shares := 2, price := 3, cumQty := 2,
     avgPrice := 3 })

/-- Claim C6 (witness): the dedup statement applied at a concrete double
delivery, a concrete malformed delivery, and a concrete correction
pair. -/
theorem claim_C6_witness :
    ((register_executions conv0 (register_executions conv0 [] [payload6]).1 [payload6]).1.filter
        (fun r => r.exec_id == payload6.2.execId)).length = 1 ∧
    register_executions conv0 [] [payload6b] = ([], some "ValueError") ∧
    (execA2 ∈ [execA, execA2] ∧ ∀ e ∈ [execA, execA2],
        e.base_exec_id = execA2.base_exec_id → e.utc_time ≤ execA2.utc_time) :=
  ⟨claim_C6_exec_dedup.1 conv0 [] payload6 ("x", some 1) (by decide) (by decide),
   claim_C6_exec_dedup.2.1 conv0 [] payload6b "ValueError" (by decide) (by decide),
   claim_C6_exec_dedup.2.2 [execA, execA2] execA2 (by decide)⟩

/-! ## Claim C3 -/

/-- The panic-close price query: `get_trade_limit_price(t, 'SELL',
use_mid=False, offset=0)` on a BAG reads the *bid*, returns 0 when no
price is available, and rounds to 2 decimals. -/
theorem get_trade_limit_price_bid (t : IbTrade) (mkt : String → ℚ)
    (hsec : t.sec_type = "BAG") :
    get_trade_limit_price t "SELL" mkt false 0 =
      Except.ok (if mkt "bid" = 0 then 0 else pyRound2 (mkt "bid")) := by
  unfold get_trade_limit_price
  simp only [Bool.false_eq_true, if_false, Bind.bind, Except.bind, pure, Except.pure, hsec]
  by_cases hz : mkt "bid" = 0
  · simp [hz]
  · simp [hz]

unseal Rat.add Rat.sub Rat.mul Rat.inv in
/-- Claim C3 (counterexample): an open BAG trade recorded as a debit
spread (`original_entry_price = 1 > 0`) whose combo mid is 0.01 ≤ 0.02,
with the options market open and no target or stop triggered, emits *no*
order: the code keys the panic close on `entry_price > 0` (here −1) and on
the bid (here 0.05), not on `original_entry_price` and the mid. -/
theorem claim_C3_counterexample :
    exTrade3.sec_type = "BAG" ∧
    exTrade3.original_entry_price = some 1 ∧
    mkt3 "mid" = 1/100 ∧
    mkt3 "mid" ≤ EVAL_DEBIT_SPREAD_PANIC_CLOSE_VALUE ∧
    evaluate_trade_step exTrade3 [] (some 4) mkt3 false true = Except.ok none :=
  ⟨rfl, rfl, by decide, by decide, by decide⟩

/-- Claim C3 (amended): in the evaluation of an open BAG trade that
triggers no target or stop (with a fresh underlying price and a next
target present), the forced close fires on `entry_price > 0` and on the
2-decimal-rounded *bid* being ≤ 0.02 (an unavailable price counts as 0 and
also fires), emitting a MKT SELL of `left_qty` capped at the completed
bought-minus-sold quantity, provided `left_qty` is non-zero. -/
theorem claim_C3_amended_panic_close (t : IbTrade) (table : List IbExecution)
    (p tp l lq e : ℚ) (mkt : String → ℚ) (stocks_open : Bool)
    (hsec : t.sec_type = "BAG")
    (hnt : (IbTrade.get_next_target t).2 = some tp)
    (hdir : eval_direction t table p tp (IbTrade.get_next_stop t).2
      = Except.ok (some (none, none, some l)))
    (hentry : t.entry_price = some e) (he : 0 < e)
    (hbid : (if mkt "bid" = 0 then 0 else pyRound2 (mkt "bid"))
      ≤ EVAL_DEBIT_SPREAD_PANIC_CLOSE_VALUE)
    (hlq : IbTrade.left_qty t = Except.ok lq) (hlq0 : lq ≠ 0) :
    evaluate_trade_step t table (some p) mkt stocks_open true =
      Except.ok (some ⟨"SELL", if pyAbs lq > pyAbs l then l else lq, "MKT",
        none, none, none⟩) := by
  unfold evaluate_trade_step
  rw [hnt]
  simp only []
  rw [hdir]
  simp only [hsec, Bind.bind, Except.bind]
  have hBS : (("BAG" : String) == "STK") = false := rfl
  have hBB : (("BAG" : String) == "BAG") = true := rfl
  simp only [hBS, hBB, Bool.false_eq_true, if_false, if_true, true_and]
  rw [hentry]
  simp only [pyGT, decide_eq_true_eq]
  rw [if_pos he]
  rw [get_trade_limit_price_bid t mkt hsec]
  simp only []
  rw [if_pos hbid, hlq]
  simp only [pure, Except.pure]
  rw [if_pos (show lq ≠ 0 ∧ True from ⟨hlq0, trivial⟩)]
  rw [if_neg (show ¬ (USE_LMT_ORDERS = true ∧ ¬ True) from fun h => h.2 trivial)]

unseal Rat.add Rat.sub Rat.mul Rat.inv in
/-- Claim C3 (witness): the amended statement applied at a debit BAG with
a positive fill price and a 0.01 bid. -/
theorem claim_C3_witness :
    evaluate_trade_step exTrade3w [] (some 4) mkt3w false true =
      Except.ok (some ⟨"SELL", if pyAbs 10 > pyAbs 10 then (10 : ℚ) else 10, "MKT",
        none, none, none⟩) :=
  claim_C3_amended_panic_close exTrade3w [] 4 5 10 10 1 mkt3w false rfl (by decide)
    (by decide) rfl (by norm_num) (by decide) (by decide) (by norm_num)
